import Mathlib

/-!
# Verification of the Sensirion sensor protocol layer (erust-sgp40)

Shallow embedding of the repository's protocol layer: the Sensirion CRC-8
checksum codec, the response-decoding side of the transaction engine
(`read_word`, `read_three_words` in `src/sensirion.rs`), and the per-chip
decoding operations of the SCD4x (CO2 family) and SGP40 (VOC chip) drivers.

Machine integers (`u8`, `u16`, `u64`) are embedded as `Nat` with explicit
truncation (`% 256`) exactly where the source's wrapping arithmetic can
overflow; `i16`/`i32` values are embedded as `Int` with the wrapping
`as i16` cast made explicit. The bus transport is external to the system,
so each operation is modelled as a pure function of the raw response bytes
the bus returned.
-/

set_option maxRecDepth 100000

set_option maxHeartbeats 4000000

namespace Erust

/-- Error type of `src/sensirion.rs` (`enum Error<I2cError>`).

Modelled from the spec: the snapshot's `sensirion.rs` revision declares only
`InvalidResponse`, `InvalidCrc` and the transport wrapper `I2c`, but the
driver code in `src/scd4x/mod.rs` (and its tests) uses `Error::CommandFailed`,
whose defining revision is missing from the snapshot; the `CommandFailed`
variant is added per the spec's §7 four-kind error taxonomy. -/
inductive Error (ε : Type) where
  | InvalidResponse : Error ε
  | InvalidCrc : Error ε
  | CommandFailed : Error ε
  | I2c : ε → Error ε
deriving DecidableEq

/-- One round of the CRC-8 inner loop (`src/sensirion.rs`, `Sensor::crc`):
the source's `if crc & 0x80 != 0 { crc = (crc << 1) ^ 0x31 } else { crc <<= 1 }`,
with the `u8` shift's wrap-around written as `% 256`. -/
def crcRound (s : Nat) : Nat :=
  if s &&& 0x80 ≠ 0 then ((s * 2) % 256) ^^^ 0x31 else (s * 2) % 256

/-- Processing of one data byte by `Sensor::crc`: XOR the byte into the
accumulator, then run 8 rounds of the inner loop. -/
def crcByte (s b : Nat) : Nat := crcRound^[8] (s ^^^ b)

/-- Checksum algorithm `Sensor::crc` (`src/sensirion.rs`): accumulator
initialised to `0xFF`, then the two data bytes are processed in order. -/
def crc (b0 b1 : Nat) : Nat := crcByte (crcByte 0xFF b0) b1

/-- Checksum verification `Sensor::check_crc` (`src/sensirion.rs`): recompute
the checksum of the two data bytes of a wire word and compare with its
checksum byte. -/
def check_crc {ε : Type} (d0 d1 d2 : Nat) : Except (Error ε) Unit :=
  if crc d0 d1 ≠ d2 then .error .InvalidCrc else .ok ()

/-- Big-endian 16-bit decoding `u16::from_be_bytes([b0, b1])`. -/
def from_be_bytes (b0 b1 : Nat) : Nat := (b0 <<< 8) ||| b1

/-- Response side of `Sensor::read_word` (`src/sensirion.rs`): verify the
checksum of the single 3-byte wire word the bus returned, then decode its
two data bytes big-endian. -/
def read_word {ε : Type} (r0 r1 r2 : Nat) : Except (Error ε) Nat := do
  check_crc r0 r1 r2
  pure (from_be_bytes r0 r1)

/-- Response side of `Sensor::read_three_words` (`src/sensirion.rs`): verify
the checksum of each of the three 3-byte wire words the bus returned (in
order, stopping at the first failure), then decode the three data-byte pairs
big-endian. -/
def read_three_words {ε : Type} (r0 r1 r2 r3 r4 r5 r6 r7 r8 : Nat) :
    Except (Error ε) (Nat × Nat × Nat) := do
  check_crc r0 r1 r2
  check_crc r3 r4 r5
  check_crc r6 r7 r8
  pure (from_be_bytes r0 r1, from_be_bytes r3 r4, from_be_bytes r6 r7)

/-- Numeric value of a 2-byte opcode constant (`type Cmd = [u8; 2]`),
big-endian as on the wire. -/
def opcode (c : Nat × Nat) : Nat := from_be_bytes c.1 c.2

namespace SCD4x

/-- Device address of the SCD4x driver (`src/scd4x/mod.rs`, `const ADDR`). -/
def ADDR : Nat := 0x62

/-- Chip variant tag (`src/scd4x/mod.rs`, `enum Variant`). -/
inductive Variant where
  | SCD40 : Variant
  | SCD41 : Variant
  | SCD43 : Variant
deriving DecidableEq

/-- Response side of `SCD4x::get_serial_number` (`src/scd4x/mod.rs`): decode
three checksum-protected words and concatenate them as
`(words[0] as u64) << 32 | (words[1] as u64) << 16 | (words[2] as u64)`.
The `u64` shifts cannot overflow (each word is below `2^16`), so no
truncation is needed. -/
def get_serial_number {ε : Type} (r0 r1 r2 r3 r4 r5 r6 r7 r8 : Nat) :
    Except (Error ε) Nat := do
  let words ← read_three_words r0 r1 r2 r3 r4 r5 r6 r7 r8
  pure ((words.1 <<< 32) ||| (words.2.1 <<< 16) ||| words.2.2)

/-- Variant decoding arm of `SCD4x::get_sensor_variant` (`src/scd4x/mod.rs`):
the source's `match status >> 12` with arms `0b0000`, `0b0001`, `0b0101` and
a catch-all `Err(InvalidResponse)`, written as the equivalent if-chain on
the shifted status word. -/
def variant_of_status {ε : Type} (status : Nat) : Except (Error ε) Variant :=
  if status >>> 12 = 0b0000 then .ok .SCD40
  else if status >>> 12 = 0b0001 then .ok .SCD41
  else if status >>> 12 = 0b0101 then .ok .SCD43
  else .error .InvalidResponse

/-- Response side of `SCD4x::get_sensor_variant` (`src/scd4x/mod.rs`): read
one checksum-protected status word and decode its top nibble. -/
def get_sensor_variant {ε : Type} (r0 r1 r2 : Nat) : Except (Error ε) Variant := do
  let status ← read_word r0 r1 r2
  variant_of_status status

/-- Wrapping Rust cast `as i16` applied to an `i32` value. -/
def asI16 (x : Int) : Int := (x + 32768) % 65536 - 32768

/-- Response side of `SCD4x::perform_forced_recalibration`
(`src/scd4x/mod.rs`): read one checksum-protected word; the sentinel
`0xFFFF` signals failure (`CommandFailed`), otherwise the correction is
`((val as i32) - 0x8000) as i16`. -/
def perform_forced_recalibration {ε : Type} (r0 r1 r2 : Nat) :
    Except (Error ε) Int := do
  let val ← read_word r0 r1 r2
  if val = 0xFFFF then .error .CommandFailed
  else pure (asI16 ((val : Int) - 0x8000))

end SCD4x

namespace SGP40

/-- Device address of the SGP40 driver (`src/sgp40/mod.rs`, `const ADDR`). -/
def ADDR : Nat := 0x59

/-- Opcode constant from `src/sgp40/commands.rs`. -/
def CMD_GET_SERIAL_NUMBER : Nat × Nat := (0x36, 0x82)

/-- Opcode constant from `src/sgp40/commands.rs`. -/
def CMD_TURN_HEATER_OFF : Nat × Nat := (0x36, 0x15)

/-- Opcode constant from `src/sgp40/commands.rs`. -/
def CMD_EXECUTE_SELF_TEST : Nat × Nat := (0x28, 0x0e)

/-- Opcode constant from `src/sgp40/commands.rs` (older revision of the
command table kept in the snapshot; see `MEASURE_RAW_SIGNAL`). -/
def CMD_MEASURE_RAW_SIGNAL : Nat × Nat := (0x26, 0x02)

/-- Modelled from the spec: the raw-signal-measurement opcode of the final
command table. `src/sgp40/mod.rs` refers to `commands::MEASURE_RAW_SIGNAL`,
whose defining revision of `commands.rs` is missing from the snapshot (the
snapshot keeps an older revision with prefixed names and value `0x2602`);
the spec's §6 command table and its §9 design note adopt `0x260F` as the
authoritative value. -/
def MEASURE_RAW_SIGNAL : Nat × Nat := (0x26, 0x0F)

/-- Response side of `SGP40::get_serial_number` (`src/sgp40/mod.rs`): decode
three checksum-protected words and concatenate them exactly as the SCD4x
serial number. -/
def get_serial_number {ε : Type} (r0 r1 r2 r3 r4 r5 r6 r7 r8 : Nat) :
    Except (Error ε) Nat := do
  let words ← read_three_words r0 r1 r2 r3 r4 r5 r6 r7 r8
  pure ((words.1 <<< 32) ||| (words.2.1 <<< 16) ||| words.2.2)

end SGP40

/-! ## Helper lemmas about the checksum codec -/

/-- XOR of two bytes is a byte. -/
lemma xor_lt_256 {a b : Nat} (ha : a < 256) (hb : b < 256) : a ^^^ b < 256 := by
  have h8 : (256 : Nat) = 2 ^ 8 := by norm_num
  rw [h8] at ha hb ⊢
  exact Nat.xor_lt_two_pow ha hb

/-- The byte-processing loop of the checksum keeps the accumulator a byte. -/
lemma crcIter_lt : ∀ x < 256, crcRound^[8] x < 256 := by decide

/-- GF(2)-linearity of the byte-processing loop along a single flipped bit:
flipping bit `i` of the input XORs a fixed pattern into the output. -/
lemma crcIter_flip : ∀ x < 256, ∀ i < 8,
    crcRound^[8] (x ^^^ (1 <<< i)) = crcRound^[8] x ^^^ crcRound^[8] (1 <<< i) := by
  decide

/-- GF(2)-linearity of the byte-processing loop along the image of a single
flipped bit (needed to push a first-byte flip through the second byte). -/
lemma crcIter_flip_out : ∀ x < 256, ∀ i < 8,
    crcRound^[8] (x ^^^ crcRound^[8] (1 <<< i)) =
      crcRound^[8] x ^^^ crcRound^[8] (crcRound^[8] (1 <<< i)) := by
  decide

/-- The image and double image of each single-bit pattern under the
byte-processing loop are nonzero (the loop is injective on bytes). -/
lemma crcIter_basis_ne : ∀ i < 8,
    crcRound^[8] (1 <<< i) ≠ 0 ∧ crcRound^[8] (crcRound^[8] (1 <<< i)) ≠ 0 := by
  decide

/-- XOR with a nonzero pattern changes a value. -/
lemma xor_ne_self {a d : Nat} (hd : d ≠ 0) : a ^^^ d ≠ a := by
  intro h
  apply hd
  have h2 : a ^^^ (a ^^^ d) = a ^^^ a := by rw [h]
  rwa [← Nat.xor_assoc, Nat.xor_self, Nat.zero_xor] at h2

/-- Single-bit patterns are nonzero. -/
lemma one_shiftLeft_ne_zero (i : Nat) : (1 <<< i) ≠ 0 := by
  rw [Nat.shiftLeft_eq, one_mul]
  exact (Nat.pos_pow_of_pos i (by norm_num)).ne'

/-- Flipping bit `i` of the first data byte XORs the fixed nonzero pattern
`crcRound^[8] (crcRound^[8] (1 <<< i))` into the checksum. -/
lemma crc_flip_b0 (b0 b1 i : Nat) (h0 : b0 < 256) (h1 : b1 < 256) (hi : i < 8) :
    crc (b0 ^^^ (1 <<< i)) b1 =
      crc b0 b1 ^^^ crcRound^[8] (crcRound^[8] (1 <<< i)) := by
  unfold crc crcByte
  have e1 : (0xFF : Nat) ^^^ (b0 ^^^ (1 <<< i)) = (0xFF ^^^ b0) ^^^ (1 <<< i) :=
    (Nat.xor_assoc _ _ _).symm
  rw [e1, crcIter_flip (0xFF ^^^ b0) (xor_lt_256 (by norm_num) h0) i hi]
  have e2 : (crcRound^[8] (0xFF ^^^ b0) ^^^ crcRound^[8] (1 <<< i)) ^^^ b1 =
      (crcRound^[8] (0xFF ^^^ b0) ^^^ b1) ^^^ crcRound^[8] (1 <<< i) := by
    rw [Nat.xor_assoc, Nat.xor_comm (crcRound^[8] (1 <<< i)) b1, ← Nat.xor_assoc]
  rw [e2, crcIter_flip_out _
    (xor_lt_256 (crcIter_lt _ (xor_lt_256 (by norm_num) h0)) h1) i hi]

/-- Flipping bit `i` of the second data byte XORs the fixed nonzero pattern
`crcRound^[8] (1 <<< i)` into the checksum. -/
lemma crc_flip_b1 (b0 b1 i : Nat) (h0 : b0 < 256) (h1 : b1 < 256) (hi : i < 8) :
    crc b0 (b1 ^^^ (1 <<< i)) = crc b0 b1 ^^^ crcRound^[8] (1 <<< i) := by
  unfold crc crcByte
  have e1 : crcRound^[8] (0xFF ^^^ b0) ^^^ (b1 ^^^ (1 <<< i)) =
      (crcRound^[8] (0xFF ^^^ b0) ^^^ b1) ^^^ (1 <<< i) :=
    (Nat.xor_assoc _ _ _).symm
  rw [e1, crcIter_flip _
    (xor_lt_256 (crcIter_lt _ (xor_lt_256 (by norm_num) h0)) h1) i hi]

/-! ## Claim theorems -/

/-- Claim C2: for every pair of bytes, checksum verification of the computed
checksum succeeds: `check_crc` accepts the 3-byte word `[b0, b1, crc b0 b1]`,
where `crc` is the 8-bit algorithm with initial value `0xFF` and polynomial
`0x31` over the two data bytes. -/
theorem check_crc_roundtrip (b0 b1 : Nat) :
    check_crc (ε := Unit) b0 b1 (crc b0 b1) = .ok () := by
  simp [check_crc]

/-- Claim C3: for every pair of bytes and every single-bit modification of
the 3-byte word `[b0, b1, crc b0 b1]` — flipping exactly one bit of `b0`, of
`b1`, or of the checksum byte — checksum verification of the modified word
fails with `InvalidCrc`. -/
theorem check_crc_single_bit_flip_fails (b0 b1 i : Nat)
    (h0 : b0 < 256) (h1 : b1 < 256) (hi : i < 8) :
    check_crc (ε := Unit) (b0 ^^^ (1 <<< i)) b1 (crc b0 b1) = .error .InvalidCrc ∧
    check_crc (ε := Unit) b0 (b1 ^^^ (1 <<< i)) (crc b0 b1) = .error .InvalidCrc ∧
    check_crc (ε := Unit) b0 b1 (crc b0 b1 ^^^ (1 <<< i)) = .error .InvalidCrc := by
  refine ⟨?_, ?_, ?_⟩
  · unfold check_crc
    rw [crc_flip_b0 b0 b1 i h0 h1 hi]
    rw [if_pos (xor_ne_self (crcIter_basis_ne i hi).2)]
  · unfold check_crc
    rw [crc_flip_b1 b0 b1 i h0 h1 hi]
    rw [if_pos (xor_ne_self (crcIter_basis_ne i hi).1)]
  · unfold check_crc
    rw [if_pos (Ne.symm (xor_ne_self (one_shiftLeft_ne_zero i)))]

/-- Witness for C3: flipping single bits of the valid wire word
`[0xBE, 0xEF, 0x92]` (the repository's own test vector) makes verification
fail, for a flip in each of the three byte positions. -/
theorem check_crc_single_bit_flip_example :
    check_crc (ε := Unit) (0xBE ^^^ (1 <<< 0)) 0xEF (crc 0xBE 0xEF) = .error .InvalidCrc ∧
    check_crc (ε := Unit) 0xBE (0xEF ^^^ (1 <<< 7)) (crc 0xBE 0xEF) = .error .InvalidCrc ∧
    check_crc (ε := Unit) 0xBE 0xEF (crc 0xBE 0xEF ^^^ (1 <<< 3)) = .error .InvalidCrc := by
  refine ⟨?_, ?_, ?_⟩
  · exact (check_crc_single_bit_flip_fails 0xBE 0xEF 0 (by decide) (by decide) (by decide)).1
  · exact (check_crc_single_bit_flip_fails 0xBE 0xEF 7 (by decide) (by decide) (by decide)).2.1
  · exact (check_crc_single_bit_flip_fails 0xBE 0xEF 3 (by decide) (by decide) (by decide)).2.2

/-- Claim C1: for every 9-byte bus response, `read_three_words` returns `Ok`
with the ordered triple of 16-bit values decoded big-endian from the three
3-byte wire words if and only if every word's checksum verifies, and returns
`Err InvalidCrc` when any word's checksum fails, never returning
partially-decoded data. -/
theorem read_three_words_query_spec (r0 r1 r2 r3 r4 r5 r6 r7 r8 : Nat) :
    (read_three_words (ε := Unit) r0 r1 r2 r3 r4 r5 r6 r7 r8 =
        .ok (from_be_bytes r0 r1, from_be_bytes r3 r4, from_be_bytes r6 r7) ↔
      (crc r0 r1 = r2 ∧ crc r3 r4 = r5 ∧ crc r6 r7 = r8)) ∧
    (¬(crc r0 r1 = r2 ∧ crc r3 r4 = r5 ∧ crc r6 r7 = r8) →
      read_three_words (ε := Unit) r0 r1 r2 r3 r4 r5 r6 r7 r8 = .error .InvalidCrc) := by
  by_cases hc1 : crc r0 r1 = r2 <;> by_cases hc2 : crc r3 r4 = r5 <;>
    by_cases hc3 : crc r6 r7 = r8 <;>
    simp [read_three_words, check_crc, hc1, hc2, hc3, bind, Except.bind, pure, Except.pure]

/-- Witness for C1: the response bytes
`[0x01, 0xF4, 0x33, 0x66, 0x67, 0xA2, 0x5E, 0xB9, 0x3C]` decode to the words
`(0x01F4, 0x6667, 0x5EB9)`, and corrupting the first checksum byte makes the
whole query fail with `InvalidCrc`. -/
theorem read_three_words_example :
    read_three_words (ε := Unit) 0x01 0xF4 0x33 0x66 0x67 0xA2 0x5E 0xB9 0x3C =
      .ok (0x01F4, 0x6667, 0x5EB9) ∧
    read_three_words (ε := Unit) 0x01 0xF4 0x34 0x66 0x67 0xA2 0x5E 0xB9 0x3C =
      .error .InvalidCrc := by
  constructor
  · have h := (read_three_words_query_spec 0x01 0xF4 0x33 0x66 0x67 0xA2 0x5E 0xB9 0x3C).1.mpr
      (by decide)
    rw [h]
    rfl
  · exact (read_three_words_query_spec 0x01 0xF4 0x34 0x66 0x67 0xA2 0x5E 0xB9 0x3C).2 (by decide)

/-! ## Shared decoding helper lemmas -/

/-- A successfully verified single wire word decodes big-endian. -/
lemma read_word_ok {ε : Type} (r0 r1 r2 : Nat) (h : crc r0 r1 = r2) :
    read_word (ε := ε) r0 r1 r2 = .ok (from_be_bytes r0 r1) := by
  simp [read_word, check_crc, h, bind, Except.bind, pure, Except.pure]

/-- Three successfully verified wire words decode big-endian in order. -/
lemma read_three_words_ok {ε : Type} (r0 r1 r2 r3 r4 r5 r6 r7 r8 : Nat)
    (hc0 : crc r0 r1 = r2) (hc1 : crc r3 r4 = r5) (hc2 : crc r6 r7 = r8) :
    read_three_words (ε := ε) r0 r1 r2 r3 r4 r5 r6 r7 r8 =
      .ok (from_be_bytes r0 r1, from_be_bytes r3 r4, from_be_bytes r6 r7) := by
  simp [read_three_words, check_crc, hc0, hc1, hc2, bind, Except.bind, pure, Except.pure]

/-- Two bytes decode big-endian to a 16-bit value. -/
lemma from_be_bytes_lt {b0 b1 : Nat} (h0 : b0 < 256) (h1 : b1 < 256) :
    from_be_bytes b0 b1 < 65536 := by
  have h16 : (65536 : Nat) = 2 ^ 16 := by norm_num
  unfold from_be_bytes
  rw [h16]
  apply Nat.or_lt_two_pow
  · rw [Nat.shiftLeft_eq]
    have e : (2 : Nat) ^ 8 = 256 := by norm_num
    rw [e]
    have e2 : (2 : Nat) ^ 16 = 65536 := by norm_num
    rw [e2]
    omega
  · omega

/-- The wrapping `as i16` cast is the identity on values already in the
`i16` range. -/
lemma asI16_eq_of_bounds {x : Int} (hl : -32768 ≤ x) (hu : x < 32768) :
    SCD4x.asI16 x = x := by
  unfold SCD4x.asI16
  omega

/-- Claim C4: the VOC-chip driver uses device address `0x59` and its four
opcode constants are bit-exact per the authoritative command table:
get-serial `0x3682`, heater-off `0x3615`, self-test `0x280E`, and
measure-raw-signal `0x260F`. -/
theorem sgp40_command_table :
    SGP40.ADDR = 0x59 ∧
    opcode SGP40.CMD_GET_SERIAL_NUMBER = 0x3682 ∧
    opcode SGP40.CMD_TURN_HEATER_OFF = 0x3615 ∧
    opcode SGP40.CMD_EXECUTE_SELF_TEST = 0x280E ∧
    opcode SGP40.MEASURE_RAW_SIGNAL = 0x260F := by
  exact ⟨rfl, rfl, rfl, rfl, rfl⟩

/-- Claim C5: for every checksum-valid response word of
`perform_forced_recalibration`, the sentinel word `0xFFFF` fails with
`CommandFailed`, and otherwise the operation returns the signed correction
equal to the word minus `0x8000`. -/
theorem perform_forced_recalibration_spec (r0 r1 r2 : Nat)
    (h0 : r0 < 256) (h1 : r1 < 256) (hcrc : crc r0 r1 = r2) :
    (from_be_bytes r0 r1 = 0xFFFF →
      SCD4x.perform_forced_recalibration (ε := Unit) r0 r1 r2 =
        .error .CommandFailed) ∧
    (from_be_bytes r0 r1 ≠ 0xFFFF →
      SCD4x.perform_forced_recalibration (ε := Unit) r0 r1 r2 =
        .ok ((from_be_bytes r0 r1 : Int) - 0x8000)) := by
  have hw := from_be_bytes_lt h0 h1
  constructor
  · intro hE
    simp [SCD4x.perform_forced_recalibration, read_word_ok r0 r1 r2 hcrc, hE,
      bind, Except.bind]
  · intro hNe
    have hasi : SCD4x.asI16 ((from_be_bytes r0 r1 : Int) - 0x8000) =
        (from_be_bytes r0 r1 : Int) - 0x8000 := by
      apply asI16_eq_of_bounds <;> omega
    simp [SCD4x.perform_forced_recalibration, read_word_ok r0 r1 r2 hcrc, hNe,
      bind, Except.bind, pure, Except.pure, hasi]

/-- Witness for C5: the response word `0x7FCE` (wire word
`[0x7F, 0xCE, 0x7B]`) yields correction `-50`, and the sentinel word
`0xFFFF` (wire word `[0xFF, 0xFF, 0xAC]`) fails with `CommandFailed`. -/
theorem perform_forced_recalibration_example :
    SCD4x.perform_forced_recalibration (ε := Unit) 0x7F 0xCE 0x7B = .ok (-50) ∧
    SCD4x.perform_forced_recalibration (ε := Unit) 0xFF 0xFF 0xAC =
      .error .CommandFailed := by
  constructor
  · have h := (perform_forced_recalibration_spec 0x7F 0xCE 0x7B (by decide)
      (by decide) (by decide)).2 (by decide)
    rw [h]
    rfl
  · exact (perform_forced_recalibration_spec 0xFF 0xFF 0xAC (by decide)
      (by decide) (by decide)).1 (by decide)

/-- Claim C6: for every checksum-valid status word, `get_sensor_variant`
decodes the top 4 bits as `0b0000 ↦ SCD40`, `0b0001 ↦ SCD41`,
`0b0101 ↦ SCD43`, any other pattern failing with `InvalidResponse`, and the
result depends on no bits of the word other than the top nibble. -/
theorem get_sensor_variant_spec (r0 r1 r2 : Nat) (hcrc : crc r0 r1 = r2) :
    SCD4x.get_sensor_variant (ε := Unit) r0 r1 r2 =
      SCD4x.variant_of_status (from_be_bytes r0 r1) ∧
    (∀ w w' : Nat, w >>> 12 = w' >>> 12 →
      SCD4x.variant_of_status (ε := Unit) w = SCD4x.variant_of_status w') ∧
    (∀ w : Nat, w >>> 12 = 0 →
      SCD4x.variant_of_status (ε := Unit) w = .ok .SCD40) ∧
    (∀ w : Nat, w >>> 12 = 1 →
      SCD4x.variant_of_status (ε := Unit) w = .ok .SCD41) ∧
    (∀ w : Nat, w >>> 12 = 5 →
      SCD4x.variant_of_status (ε := Unit) w = .ok .SCD43) ∧
    (∀ w : Nat, w >>> 12 ≠ 0 → w >>> 12 ≠ 1 → w >>> 12 ≠ 5 →
      SCD4x.variant_of_status (ε := Unit) w = .error .InvalidResponse) := by
  refine ⟨?_, ?_, ?_, ?_, ?_, ?_⟩
  · simp [SCD4x.get_sensor_variant, read_word_ok r0 r1 r2 hcrc, bind, Except.bind]
  · intro w w' hw
    simp [SCD4x.variant_of_status, hw]
  · intro w hw
    simp [SCD4x.variant_of_status, hw]
  · intro w hw
    simp [SCD4x.variant_of_status, hw]
  · intro w hw
    simp [SCD4x.variant_of_status, hw]
  · intro w hv0 hv1 hv5
    simp [SCD4x.variant_of_status, hv0, hv1, hv5]

/-- Witness for C6: the repository's own test vectors decode to the three
variants, and a checksum-valid word with top nibble `0x2` fails with
`InvalidResponse`. -/
theorem get_sensor_variant_example :
    SCD4x.get_sensor_variant (ε := Unit) 0x04 0x40 0x3F = .ok .SCD40 ∧
    SCD4x.get_sensor_variant (ε := Unit) 0x14 0x40 0x51 = .ok .SCD41 ∧
    SCD4x.get_sensor_variant (ε := Unit) 0x54 0x41 0xE9 = .ok .SCD43 ∧
    SCD4x.get_sensor_variant (ε := Unit) 0x24 0x40 (crc 0x24 0x40) =
      .error .InvalidResponse := by
  refine ⟨?_, ?_, ?_, ?_⟩
  · rw [(get_sensor_variant_spec 0x04 0x40 0x3F (by decide)).1]
    rfl
  · rw [(get_sensor_variant_spec 0x14 0x40 0x51 (by decide)).1]
    rfl
  · rw [(get_sensor_variant_spec 0x54 0x41 0xE9 (by decide)).1]
    rfl
  · rw [(get_sensor_variant_spec 0x24 0x40 (crc 0x24 0x40) rfl).1]
    rfl

/-- Claim C8: for every triple of checksum-valid words, `get_serial_number`
of both the CO2-family driver and the VOC-chip driver returns the 48-bit
identifier `(w0 <<< 32) ||| (w1 <<< 16) ||| w2`, always below `2^48`. -/
theorem get_serial_number_spec (r0 r1 r2 r3 r4 r5 r6 r7 r8 : Nat)
    (h0 : r0 < 256) (h1 : r1 < 256) (h3 : r3 < 256) (h4 : r4 < 256)
    (h6 : r6 < 256) (h7 : r7 < 256)
    (hc0 : crc r0 r1 = r2) (hc1 : crc r3 r4 = r5) (hc2 : crc r6 r7 = r8) :
    SCD4x.get_serial_number (ε := Unit) r0 r1 r2 r3 r4 r5 r6 r7 r8 =
      .ok ((from_be_bytes r0 r1 <<< 32) ||| (from_be_bytes r3 r4 <<< 16) |||
        from_be_bytes r6 r7) ∧
    SGP40.get_serial_number (ε := Unit) r0 r1 r2 r3 r4 r5 r6 r7 r8 =
      .ok ((from_be_bytes r0 r1 <<< 32) ||| (from_be_bytes r3 r4 <<< 16) |||
        from_be_bytes r6 r7) ∧
    ((from_be_bytes r0 r1 <<< 32) ||| (from_be_bytes r3 r4 <<< 16) |||
      from_be_bytes r6 r7) < 2 ^ 48 := by
  have hrt := read_three_words_ok (ε := Unit) r0 r1 r2 r3 r4 r5 r6 r7 r8 hc0 hc1 hc2
  refine ⟨?_, ?_, ?_⟩
  · simp [SCD4x.get_serial_number, hrt, bind, Except.bind, pure, Except.pure]
  · simp [SGP40.get_serial_number, hrt, bind, Except.bind, pure, Except.pure]
  · have hw0 := from_be_bytes_lt h0 h1
    have hw1 := from_be_bytes_lt h3 h4
    have hw2 := from_be_bytes_lt h6 h7
    have e32 : (2 : Nat) ^ 32 = 4294967296 := by norm_num
    have e48 : (2 : Nat) ^ 48 = 281474976710656 := by norm_num
    have e16 : (2 : Nat) ^ 16 = 65536 := by norm_num
    have hA : from_be_bytes r0 r1 <<< 32 < 2 ^ 48 := by
      rw [Nat.shiftLeft_eq, e32, e48]
      omega
    have hB : from_be_bytes r3 r4 <<< 16 < 2 ^ 48 := by
      rw [Nat.shiftLeft_eq, e16, e48]
      omega
    have hC : from_be_bytes r6 r7 < 2 ^ 48 := by
      rw [e48]
      omega
    exact Nat.or_lt_two_pow (Nat.or_lt_two_pow hA hB) hC

/-- Witness for C8: the response bytes
`[0xF8, 0x96, 0x31, 0x9F, 0x07, 0xC2, 0x3B, 0xBE, 0x89]` yield serial
`273325796834238` in both drivers. -/
theorem get_serial_number_example :
    SCD4x.get_serial_number (ε := Unit) 0xF8 0x96 0x31 0x9F 0x07 0xC2 0x3B 0xBE 0x89 =
      .ok 273325796834238 ∧
    SGP40.get_serial_number (ε := Unit) 0xF8 0x96 0x31 0x9F 0x07 0xC2 0x3B 0xBE 0x89 =
      .ok 273325796834238 := by
  have h := get_serial_number_spec 0xF8 0x96 0x31 0x9F 0x07 0xC2 0x3B 0xBE 0x89
    (by decide) (by decide) (by decide) (by decide) (by decide) (by decide)
    (by decide) (by decide) (by decide)
  exact ⟨h.1.trans (by rfl), h.2.1.trans (by rfl)⟩

/-- Claim C9: the error type surfaced to callers is the closed set of exactly
four kinds — `InvalidCrc`, `InvalidResponse`, `CommandFailed`, and the
wrapped transport error `I2c` — and every driver operation result is either
success or exactly one of these kinds. -/
theorem error_kinds_closed {ε α : Type} (e : Error ε) (r : Except (Error ε) α) :
    (e = .InvalidCrc ∨ e = .InvalidResponse ∨ e = .CommandFailed ∨
      ∃ t, e = .I2c t) ∧
    ((∃ v, r = .ok v) ∨ ∃ err, r = .error err) := by
  constructor
  · cases e with
    | InvalidResponse => exact Or.inr (Or.inl rfl)
    | InvalidCrc => exact Or.inl rfl
    | CommandFailed => exact Or.inr (Or.inr (Or.inl rfl))
    | I2c t => exact Or.inr (Or.inr (Or.inr ⟨t, rfl⟩))
  · cases r with
    | ok v => exact Or.inl ⟨v, rfl⟩
    | error err => exact Or.inr ⟨err, rfl⟩

end Erust
